import Mathlib

/-!
Verification of the client-side reconciliation engine of the SmartBookmarkApp
repository (src/components/BookmarkList.tsx), shallowly embedded in Lean 4.

The component keeps a list of bookmark records in React state and mutates it
through five paths: the realtime INSERT handler, the realtime DELETE handler,
the optimistic create with its success/failure resolution (handleSubmit), and
the optimistic delete with its failure rollback (handleDelete).  Every state
update in the source is a functional update on the current list, which is what
the definitions below embed.  External inputs (URL validity as decided by the
platform's URL parser, the generated temporary id, the clock, and the store's
responses) are passed as explicit parameters.
-/

/-- A bookmark record, as in the `Bookmark` type of src/components/BookmarkList.tsx
(lines 7-13).  In the source `created_at` is an ISO-8601 timestamp string that
the engine stores but never inspects; since ISO-8601 strings compare
chronologically, it is modelled as the timestamp value itself (a natural
number). -/
structure Bookmark where
  id : String
  user_id : String
  url : String
  title : String
  created_at : Nat
deriving DecidableEq, Repr

/-- The ids of the records in a list, in order. -/
def ids (l : List Bookmark) : List String := l.map (fun b => b.id)

/-- The realtime INSERT handler body (src/components/BookmarkList.tsx lines
48-58): if some record with the incoming id already exists the list is
returned unchanged, otherwise the incoming record is prepended. -/
def insertEvent (rec : Bookmark) (current : List Bookmark) : List Bookmark :=
  if current.any (fun b => b.id == rec.id) then current else rec :: current

/-- Removal by id, the common body of the realtime DELETE handler (lines
59-66), the optimistic delete (line 148), and the create-failure rollback
(line 128): `current.filter (b => b.id !== x)`. -/
def removeById (x : String) (current : List Bookmark) : List Bookmark :=
  current.filter (fun b => b.id != x)

/-- Replacement of the optimistic placeholder by the store's echoed row
(lines 135-137): `current.map (b => b.id === tempId ? row : b)`. -/
def replaceById (tempId : String) (row : Bookmark) (current : List Bookmark) :
    List Bookmark :=
  current.map (fun b => if b.id == tempId then row else b)

/-- An inbound realtime event, the tagged shape the subscription callback
dispatches on (lines 48-66). -/
inductive RealtimeEvent where
  | insert (rec : Bookmark)
  | delete (x : String)
deriving DecidableEq, Repr

/-- Folding one realtime event into the list, exactly as the subscription
callback does. -/
def foldEvent (e : RealtimeEvent) (current : List Bookmark) : List Bookmark :=
  match e with
  | RealtimeEvent.insert rec => insertEvent rec current
  | RealtimeEvent.delete x => removeById x current

/-- The component state touched by handleSubmit and handleDelete: the
bookmark list plus the `url`, `title`, `isAdding` and `error` state hooks
(lines 21-25). -/
structure ComponentState where
  bookmarks : List Bookmark
  url : String
  title : String
  isAdding : Bool
  error : String
deriving DecidableEq, Repr

/-- Result of the synchronous prefix of handleSubmit, up to the await of the
insert request.  `rejected` means validation failed and the handler returned
before any list mutation and before issuing the store request; `pending`
carries the state after the optimistic prepend together with the temporary id
and the placeholder record, with the insert request now in flight. -/
inductive SubmitResult where
  | rejected (s : ComponentState)
  | pending (s : ComponentState) (tempId : String) (optimistic : Bookmark)
deriving DecidableEq, Repr

/-- Model of the platform string trim (JS String.prototype.trim, used at
src/components/BookmarkList.tsx lines 92, 103 and 104): remove whitespace from
both ends of the string.  Defined over the character list so that concrete
instances reduce in the kernel. -/
def trimString (s : String) : String :=
  String.mk
    (((s.data.dropWhile Char.isWhitespace).reverse.dropWhile Char.isWhitespace).reverse)

/-- The synchronous prefix of handleSubmit (lines 79-111): clear the error,
set isAdding, validate the url with the platform URL parser (abstracted as the
Boolean parameter `validURL`), validate the trimmed title, then prepend the
optimistic placeholder built from the trimmed inputs and clear the input
fields.  `tempId` is the generated UUID and `now` the current timestamp. -/
def handleSubmitStart (validURL : String → Bool) (userId tempId : String)
    (now : Nat) (s : ComponentState) : SubmitResult :=
  let s0 : ComponentState := { s with error := "", isAdding := true }
  if validURL s.url then
    if trimString s.title == "" then
      SubmitResult.rejected { s0 with error := "Please enter a title", isAdding := false }
    else
      let optimistic : Bookmark :=
        { id := tempId, url := trimString s.url, title := trimString s.title,
          user_id := userId, created_at := now }
      SubmitResult.pending
        { s0 with bookmarks := optimistic :: s0.bookmarks, url := "", title := "" }
        tempId optimistic
  else
    SubmitResult.rejected { s0 with error := "Please enter a valid URL", isAdding := false }

/-- The component state after the synchronous prefix of handleSubmit, in
either outcome. -/
def stateOf : SubmitResult → ComponentState
  | SubmitResult.rejected s => s
  | SubmitResult.pending s _ _ => s

/-- Whether the synchronous prefix of handleSubmit issued the store insert
request: only the pending outcome reaches line 113 of the source, where the
request is sent; both validation failures return first. -/
def requestIssued : SubmitResult → Bool
  | SubmitResult.rejected _ => false
  | SubmitResult.pending _ _ _ => true

/-- The store's answer to the insert request: a failure with a message, or a
success carrying the echoed rows (`data`), which may be absent or empty. -/
inductive InsertResponse where
  | failure (msg : String)
  | success (rows : Option (List Bookmark))
deriving DecidableEq, Repr

/-- The continuation of handleSubmit after the insert request resolves (lines
113-142), applied to the component state current at resolution time.  On
failure: remove the placeholder, surface the failure message, restore the
(trimmed) url/title into the input fields.  On success: replace the
placeholder by the first echoed row when one is present, otherwise leave the
list alone; in either case clear isAdding. -/
def handleSubmitResolve (tempId : String) (optimistic : Bookmark)
    (resp : InsertResponse) (s : ComponentState) : ComponentState :=
  match resp with
  | InsertResponse.failure msg =>
      { s with bookmarks := removeById tempId s.bookmarks,
               error := "Failed to add bookmark: " ++
                 (if msg == "" then "Unknown error" else msg),
               url := optimistic.url, title := optimistic.title,
               isAdding := false }
  | InsertResponse.success rows =>
      match rows with
      | some (row :: _) =>
          { s with bookmarks := replaceById tempId row s.bookmarks,
                   isAdding := false }
      | some [] => { s with isAdding := false }
      | none => { s with isAdding := false }

/-- The synchronous prefix of handleDelete (lines 145-148): capture the record
with the given id for possible rollback, then remove it optimistically.
Returns the new state and the captured record. -/
def handleDeleteStart (x : String) (s : ComponentState) :
    ComponentState × Option Bookmark :=
  ({ s with bookmarks := removeById x s.bookmarks },
   s.bookmarks.find? (fun b => b.id == x))

/-- The continuation of handleDelete after the delete request resolves (lines
155-164), applied to the state current at resolution time: on failure, prepend
the captured record when one was captured; on success, do nothing. -/
def handleDeleteResolve (captured : Option Bookmark) (failed : Bool)
    (s : ComponentState) : ComponentState :=
  if failed then
    match captured with
    | some rec => { s with bookmarks := rec :: s.bookmarks }
    | none => s
  else s

/-- One mutation of the bookmark list, covering every path through which the
source mutates it: the optimistic prepend of handleSubmit (line 109), the
success replace (lines 135-137) and failure removal (line 128) of the create
resolution, the optimistic removal of handleDelete (line 148) and its failure
rollback (line 160), and the two realtime handlers (lines 48-66). -/
inductive EngineOp where
  | optimisticCreate (rec : Bookmark)
  | createResolveSuccess (tempId : String) (row : Bookmark)
  | createResolveFailure (tempId : String)
  | optimisticDelete (x : String)
  | deleteRollback (rec : Bookmark)
  | remoteCreated (rec : Bookmark)
  | remoteDeleted (x : String)
deriving DecidableEq, Repr

/-- Applying one engine operation to the bookmark list. -/
def applyOp (l : List Bookmark) (o : EngineOp) : List Bookmark :=
  match o with
  | EngineOp.optimisticCreate rec => rec :: l
  | EngineOp.createResolveSuccess tempId row => replaceById tempId row l
  | EngineOp.createResolveFailure tempId => removeById tempId l
  | EngineOp.optimisticDelete x => removeById x l
  | EngineOp.deleteRollback rec => rec :: l
  | EngineOp.remoteCreated rec => insertEvent rec l
  | EngineOp.remoteDeleted x => removeById x l

/-- Applying a sequence of engine operations in order. -/
def applyOps (ops : List EngineOp) (l : List Bookmark) : List Bookmark :=
  ops.foldl applyOp l

/-- The list is sorted by `created_at` descending (most recent first). -/
def sortedByCreatedAtDesc (l : List Bookmark) : Prop :=
  l.Pairwise (fun a b => b.created_at ≤ a.created_at)

instance (l : List Bookmark) : Decidable (sortedByCreatedAtDesc l) :=
  List.instDecidablePairwise l

/-- The component together with its mount status: `mounted` is true between
the effect body and its cleanup. -/
structure MountedComponent where
  mounted : Bool
  state : ComponentState
deriving DecidableEq, Repr

/-- The effect cleanup (lines 73-77): it releases the realtime channel and
nothing else; in particular it does not touch the component state. -/
def cleanupEffect (m : MountedComponent) : MountedComponent :=
  { m with mounted := false }

/-- Delivery of a subscription event to the component.  The realtime callback
(lines 42-67) is invoked only while the channel registered by the effect is
subscribed; the cleanup removes that channel, so per the subscription
contract no event reaches the callback afterwards.  While mounted, the
callback folds the event into the list. -/
def deliverEvent (e : RealtimeEvent) (m : MountedComponent) : MountedComponent :=
  if m.mounted then
    { m with state := { m.state with bookmarks := foldEvent e m.state.bookmarks } }
  else m

/-- A late-arriving resolution of an in-flight create request.  The
continuation after the await (lines 113-142) invokes the state setters
unconditionally: the source consults no mount or liveness flag, so the
embedded continuation is applied to the component state regardless of
`mounted`. -/
def lateCreateResolve (tempId : String) (optimistic : Bookmark)
    (resp : InsertResponse) (m : MountedComponent) : MountedComponent :=
  { m with state := handleSubmitResolve tempId optimistic resp m.state }

/-- Placeholder record inserted by the optimistic create in the scenarios
below: temporary id "t1". -/
def tmpB : Bookmark :=
  { id := "t1", user_id := "u1", url := "https://a.example", title := "A",
    created_at := 100 }

/-- The permanent row the store assigns for the same create: permanent id
"p1", same url and title. -/
def permB : Bookmark :=
  { id := "p1", user_id := "u1", url := "https://a.example", title := "A",
    created_at := 101 }

/-- The component state at the moment the user submits the create considered
in the echo-interleaving scenarios: empty list, url and title filled in. -/
def s0A : ComponentState :=
  { bookmarks := [], url := "https://a.example", title := "A",
    isAdding := false, error := "" }

/-- The component state right after the optimistic step of that create: the
placeholder is at the front, the input fields are cleared, the insert request
is in flight. -/
def s1A : ComponentState :=
  { bookmarks := [tmpB], url := "", title := "",
    isAdding := true, error := "" }

/-! ## Helper lemmas -/

/-- Removing an id that no record carries leaves the list unchanged. -/
theorem removeById_of_absent (x : String) (l : List Bookmark)
    (h : ∀ b ∈ l, b.id ≠ x) : removeById x l = l :=
  List.filter_eq_self.mpr (fun b hb => by simpa [bne_iff_ne] using h b hb)

/-- Removal drops exactly the records carrying the removed id; in particular
the record at the head is dropped when it carries that id. -/
theorem removeById_cons_self (x : String) (rec : Bookmark) (l : List Bookmark)
    (hrec : rec.id = x) (h : ∀ b ∈ l, b.id ≠ x) :
    removeById x (rec :: l) = l := by
  have : (rec.id != x) = false := by simp [hrec]
  simp only [removeById, List.filter_cons, this]
  exact removeById_of_absent x l h


/-! ## Claims -/

/-- C1.  The claim states that under every interleaving of the engine's
operations the list never contains two records with the same id.  The code
violates it: starting from the empty list, the optimistic create prepends the
placeholder (temporary id "t1"); the realtime echo of that create, carrying
the permanent row (id "p1"), arrives before the insert response and passes the
duplicate check (no record with id "p1" exists yet), so it is prepended; then
the successful response is processed and the replace step maps the placeholder
to the permanent row, leaving two records with id "p1". -/
theorem c1_uniqueness_violated_by_echo_interleaving :
    applyOps [EngineOp.optimisticCreate tmpB, EngineOp.remoteCreated permB,
        EngineOp.createResolveSuccess "t1" permB] [] = [permB, permB] ∧
    ¬ (ids (applyOps [EngineOp.optimisticCreate tmpB, EngineOp.remoteCreated permB,
        EngineOp.createResolveSuccess "t1" permB] [])).Nodup := by
  constructor
  · decide
  · decide

/-- C2.  The claim states that after the successful response is processed, in
any interleaving with the remote echo of the same create, the list contains
exactly one record with the submitted url/title.  Running the component
pipeline at the concrete create of s0A: the optimistic step yields s1A; the
realtime echo of the permanent row is folded in first; processing the
successful response then leaves two records with url "https://a.example" and
title "A", both under the permanent id "p1". -/
theorem c2_duplicate_after_echo_then_response :
    handleSubmitStart (fun _ => true) "u1" "t1" 100 s0A
      = SubmitResult.pending s1A "t1" tmpB ∧
    foldEvent (RealtimeEvent.insert permB) s1A.bookmarks = [permB, tmpB] ∧
    (handleSubmitResolve "t1" tmpB (InsertResponse.success (some [permB]))
        { s1A with bookmarks := [permB, tmpB] }).bookmarks = [permB, permB] ∧
    ((handleSubmitResolve "t1" tmpB (InsertResponse.success (some [permB]))
        { s1A with bookmarks := [permB, tmpB] }).bookmarks.countP
      (fun b => b.url == "https://a.example" && b.title == "A")) = 2 := by
  refine ⟨?_, ?_, ?_, ?_⟩
  · decide
  · decide
  · decide
  · decide

/-- C4.  A submission whose url the platform URL parser rejects, or whose
title is empty after trimming, is rejected by the synchronous prefix of
handleSubmit: no store request is issued, the bookmark list is untouched, and
a non-empty validation message is placed in the error state. -/
theorem c4_invalid_submission_rejected (validURL : String → Bool)
    (userId tempId : String) (now : Nat) (s : ComponentState)
    (h : validURL s.url = false ∨ trimString s.title = "") :
    requestIssued (handleSubmitStart validURL userId tempId now s) = false ∧
    (stateOf (handleSubmitStart validURL userId tempId now s)).bookmarks
      = s.bookmarks ∧
    (stateOf (handleSubmitStart validURL userId tempId now s)).error ≠ "" := by
  rcases h with h | h
  · refine ⟨?_, ?_, ?_⟩ <;> simp [handleSubmitStart, h, requestIssued, stateOf]
  · cases hv : validURL s.url
    · refine ⟨?_, ?_, ?_⟩ <;> simp [handleSubmitStart, hv, requestIssued, stateOf]
    · refine ⟨?_, ?_, ?_⟩ <;> simp [handleSubmitStart, hv, h, requestIssued, stateOf]

/-- C4 witness: a concrete submission with a rejecting URL parser. -/
theorem c4_invalid_submission_rejected_witness :
    requestIssued (handleSubmitStart (fun _ => false) "u1" "t9" 5 s0A) = false ∧
    (stateOf (handleSubmitStart (fun _ => false) "u1" "t9" 5 s0A)).bookmarks
      = s0A.bookmarks ∧
    (stateOf (handleSubmitStart (fun _ => false) "u1" "t9" 5 s0A)).error ≠ "" :=
  c4_invalid_submission_rejected (fun _ => false) "u1" "t9" 5 s0A (Or.inl rfl)

/-- C5.  removeById is idempotent and total: applying it twice equals applying
it once, applying it when no record carries the id leaves the list unchanged
(so the optimistic delete and a later Deleted event may both remove the same
id without error, the second removal being a no-op), and after a removal no
record with the removed id remains. -/
theorem c5_removeById_idempotent_total (x : String) (l : List Bookmark)
    (b : Bookmark) :
    removeById x (removeById x l) = removeById x l ∧
    ((∀ c ∈ l, c.id ≠ x) → removeById x l = l) ∧
    (b ∈ removeById x l → b.id ≠ x) := by
  refine ⟨?_, ?_, ?_⟩
  · simp [removeById, List.filter_filter]
  · exact removeById_of_absent x l
  · intro hb
    have := List.of_mem_filter hb
    simpa [bne_iff_ne] using this

/-- C5 witness: a concrete double removal, a removal of an absent id, and the
absence of the removed id afterwards. -/
theorem c5_removeById_idempotent_total_witness :
    removeById "t1" (removeById "t1" [tmpB, permB]) = removeById "t1" [tmpB, permB] ∧
    removeById "t1" [permB] = [permB] ∧
    permB.id ≠ "t1" :=
  ⟨(c5_removeById_idempotent_total "t1" [tmpB, permB] permB).1,
   (c5_removeById_idempotent_total "t1" [permB] permB).2.1 (by decide),
   (c5_removeById_idempotent_total "t1" [permB] permB).2.2 (by decide)⟩

/-- C7.  Folding a Created event whose record id is already present leaves the
list exactly unchanged; folding one whose id is absent prepends the record. -/
theorem c7_created_event_folding (rec : Bookmark) (l : List Bookmark) :
    ((∃ b ∈ l, b.id = rec.id) → insertEvent rec l = l) ∧
    ((∀ b ∈ l, b.id ≠ rec.id) → insertEvent rec l = rec :: l) := by
  constructor
  · rintro ⟨b, hb, hid⟩
    have hany : l.any (fun b => b.id == rec.id) = true :=
      List.any_eq_true.mpr ⟨b, hb, by simp [hid]⟩
    simp [insertEvent, hany]
  · intro h
    have hany : l.any (fun b => b.id == rec.id) = false := by
      rw [List.any_eq_false]
      intro b hb
      simpa using h b hb
    simp [insertEvent, hany]

/-- C7 witness: a duplicate echo is suppressed on a concrete list; a fresh
record is prepended to a concrete list. -/
theorem c7_created_event_folding_witness :
    insertEvent permB [permB] = [permB] ∧
    insertEvent permB [tmpB] = permB :: [tmpB] :=
  ⟨(c7_created_event_folding permB [permB]).1 ⟨permB, by decide, rfl⟩,
   (c7_created_event_folding permB [tmpB]).2 (by decide)⟩

/-- The component state at the moment the user submits the failing create of
the rollback scenario: note the trailing space the user typed in the title. -/
def s0B : ComponentState :=
  { bookmarks := [], url := "https://b.example", title := "B ",
    isAdding := false, error := "" }

/-- The placeholder the optimistic step builds for that create: the stored
fields are the trimmed inputs. -/
def optB : Bookmark :=
  { id := "t2", user_id := "u1", url := "https://b.example", title := "B",
    created_at := 200 }

/-- The component state right after the optimistic step of that create. -/
def s1B : ComponentState :=
  { bookmarks := [optB], url := "", title := "", isAdding := true, error := "" }

/-- C3 counterexample.  The claim states that after a failing create the input
fields are repopulated with the values the user entered.  The source restores
`optimisticBookmark.url` and `optimisticBookmark.title` (lines 129-130), which
hold the trimmed inputs: for the entered title "B " (trailing space) the field
comes back as "B", not "B ". -/
theorem c3_entered_title_not_restored :
    handleSubmitStart (fun _ => true) "u1" "t2" 200 s0B
      = SubmitResult.pending s1B "t2" optB ∧
    s0B.title = "B " ∧
    (handleSubmitResolve "t2" optB (InsertResponse.failure "boom") s1B).title = "B" ∧
    (handleSubmitResolve "t2" optB (InsertResponse.failure "boom") s1B).title
      ≠ s0B.title := by
  refine ⟨?_, ?_, ?_, ?_⟩ <;> decide

/-- C3 (amended).  After a failing create the list equals its state from
before the optimistic insert (the placeholder, whose temporary id is fresh, is
removed and nothing else changes), the input fields are repopulated with the
trimmed url/title the user entered, and a non-empty failure message is
surfaced. -/
theorem c3_create_failure_rolls_back (validURL : String → Bool)
    (userId tempId : String) (now : Nat) (msg : String)
    (s s1 : ComponentState) (opt : Bookmark)
    (hfresh : ∀ b ∈ s.bookmarks, b.id ≠ tempId)
    (hstart : handleSubmitStart validURL userId tempId now s
        = SubmitResult.pending s1 tempId opt) :
    (handleSubmitResolve tempId opt (InsertResponse.failure msg) s1).bookmarks
      = s.bookmarks ∧
    (handleSubmitResolve tempId opt (InsertResponse.failure msg) s1).url
      = trimString s.url ∧
    (handleSubmitResolve tempId opt (InsertResponse.failure msg) s1).title
      = trimString s.title ∧
    (handleSubmitResolve tempId opt (InsertResponse.failure msg) s1).error
      ≠ "" := by
  simp only [handleSubmitStart] at hstart
  split at hstart
  · split at hstart
    · simp at hstart
    · injection hstart with h1 h2 h3
      subst h1
      subst h3
      refine ⟨?_, rfl, rfl, ?_⟩
      · exact removeById_cons_self tempId _ s.bookmarks rfl hfresh
      · show ("Failed to add bookmark: " ++
            (if msg == "" then "Unknown error" else msg)) ≠ ""
        intro hc
        have hd := congrArg String.data hc
        rw [String.data_append] at hd
        have h0 : ("Failed to add bookmark: ").data = [] :=
          (List.append_eq_nil.mp hd).1
        exact absurd h0 (by decide)
  · simp at hstart

/-- C3 witness: the amended rollback property at the concrete failing create
of s0B. -/
theorem c3_create_failure_rolls_back_witness :
    (handleSubmitResolve "t2" optB (InsertResponse.failure "boom") s1B).bookmarks
      = s0B.bookmarks ∧
    (handleSubmitResolve "t2" optB (InsertResponse.failure "boom") s1B).url
      = trimString s0B.url ∧
    (handleSubmitResolve "t2" optB (InsertResponse.failure "boom") s1B).title
      = trimString s0B.title ∧
    (handleSubmitResolve "t2" optB (InsertResponse.failure "boom") s1B).error
      ≠ "" :=
  c3_create_failure_rolls_back (fun _ => true) "u1" "t2" 200 "boom" s0B s1B optB
    (by decide) (by decide)

/-- Record with the earliest timestamp in the ordering scenarios. -/
def rT1 : Bookmark :=
  { id := "r1", user_id := "u1", url := "https://one.example", title := "One",
    created_at := 1 }

/-- Record with the middle timestamp in the ordering scenarios. -/
def rT2 : Bookmark :=
  { id := "r2", user_id := "u1", url := "https://two.example", title := "Two",
    created_at := 2 }

/-- Record with the latest timestamp in the ordering scenarios. -/
def rT3 : Bookmark :=
  { id := "r3", user_id := "u1", url := "https://three.example", title := "Three",
    created_at := 3 }

/-- C6 counterexample.  The claim states that records inserted in any order
come out sorted by createdAt descending.  Every insertion path of the source
prepends unconditionally, so inserting the latest record first and an earlier
one second leaves the earlier record at the front: the snapshot is not sorted
descending. -/
theorem c6_out_of_order_insertion_unsorted :
    insertEvent rT1 (insertEvent rT3 []) = [rT1, rT3] ∧
    rT1.created_at < rT3.created_at ∧
    ¬ sortedByCreatedAtDesc (insertEvent rT1 (insertEvent rT3 [])) := by
  refine ⟨?_, ?_, ?_⟩ <;> decide

/-- C6 (amended).  Records with createdAt T1 < T2 < T3 and distinct ids,
inserted oldest first (the ascending insertion order), yield the snapshot
[T3, T2, T1], sorted by createdAt descending; since every insertion path
prepends, this insertion order is the one for which descending order is
guaranteed. -/
theorem c6_ascending_insertion_sorted (r1 r2 r3 : Bookmark)
    (h12 : r1.created_at < r2.created_at) (h23 : r2.created_at < r3.created_at)
    (hid12 : r1.id ≠ r2.id) (hid13 : r1.id ≠ r3.id) (hid23 : r2.id ≠ r3.id) :
    insertEvent r3 (insertEvent r2 (insertEvent r1 [])) = [r3, r2, r1] ∧
    sortedByCreatedAtDesc (insertEvent r3 (insertEvent r2 (insertEvent r1 []))) := by
  have b12 : (r1.id == r2.id) = false := beq_eq_false_iff_ne.mpr hid12
  have b13 : (r1.id == r3.id) = false := beq_eq_false_iff_ne.mpr hid13
  have b23 : (r2.id == r3.id) = false := beq_eq_false_iff_ne.mpr hid23
  have e1 : insertEvent r1 [] = [r1] := by simp [insertEvent]
  have e2 : insertEvent r2 [r1] = [r2, r1] := by simp [insertEvent, b12]
  have e3 : insertEvent r3 [r2, r1] = [r3, r2, r1] := by simp [insertEvent, b13, b23]
  rw [e1, e2, e3]
  refine ⟨rfl, ?_⟩
  simp only [sortedByCreatedAtDesc]
  simp [List.pairwise_cons]
  omega

/-- C6 witness: the amended ordering property at three concrete records. -/
theorem c6_ascending_insertion_sorted_witness :
    insertEvent rT3 (insertEvent rT2 (insertEvent rT1 [])) = [rT3, rT2, rT1] ∧
    sortedByCreatedAtDesc (insertEvent rT3 (insertEvent rT2 (insertEvent rT1 []))) :=
  c6_ascending_insertion_sorted rT1 rT2 rT3 (by decide) (by decide) (by decide)
    (by decide) (by decide)

/-- An unmounted component holding the placeholder of a still in-flight
create: the effect cleanup has run, the insert request has not yet resolved. -/
def unmountedC : MountedComponent :=
  { mounted := false,
    state := { bookmarks := [tmpB], url := "", title := "",
               isAdding := true, error := "" } }

/-- C8 counterexample.  The claim states that after unmount a late-arriving
resolution never mutates Local List State because the engine checks a liveness
flag before touching state.  The continuation after the await (lines 113-142)
consults no such flag: applied to an unmounted component it still rewrites the
bookmark list (here replacing the placeholder with the permanent row). -/
theorem c8_late_resolution_mutates_after_unmount :
    unmountedC.mounted = false ∧
    (lateCreateResolve "t1" tmpB (InsertResponse.success (some [permB]))
        unmountedC).state.bookmarks
      ≠ unmountedC.state.bookmarks := by
  constructor <;> decide

/-- C8 (amended).  The teardown protection the code does provide: the effect
cleanup releases the realtime channel, so a subscription event delivered after
the cleanup is not folded into state — the component is left exactly as the
cleanup left it.  Late-arriving request resolutions, by contrast, run their
state updates unconditionally (see the counterexample); the source contains no
liveness-flag check. -/
theorem c8_no_event_folded_after_cleanup (e : RealtimeEvent)
    (m : MountedComponent) :
    deliverEvent e (cleanupEffect m) = cleanupEffect m := by
  simp [deliverEvent, cleanupEffect]

/-- C9.  A successful insert response whose data is null, or an empty row
array, triggers neither the replace step (guarded by `data && data[0]` at line
134) nor any error handling: the resolution only clears isAdding, so the
bookmark list — including the still-present placeholder — and the error
message are unchanged. -/
theorem c9_empty_success_response_keeps_placeholder (tempId : String)
    (optimistic : Bookmark) (s : ComponentState) :
    handleSubmitResolve tempId optimistic (InsertResponse.success none) s
      = { s with isAdding := false } ∧
    handleSubmitResolve tempId optimistic (InsertResponse.success (some [])) s
      = { s with isAdding := false } ∧
    (handleSubmitResolve tempId optimistic (InsertResponse.success none) s).bookmarks
      = s.bookmarks ∧
    (handleSubmitResolve tempId optimistic (InsertResponse.success none) s).error
      = s.error :=
  ⟨rfl, rfl, rfl, rfl⟩

/-- C10.  Deleting an id carried by no record in the list: the capture step
finds nothing, the optimistic removal filters nothing out, and the resolution
— whether the request failed or succeeded — changes nothing, since the
rollback re-insert is guarded by the captured record. -/
theorem c10_delete_absent_id_noop (x : String) (s s2 : ComponentState)
    (failed : Bool) (h : ∀ b ∈ s.bookmarks, b.id ≠ x) :
    handleDeleteStart x s = (s, none) ∧
    handleDeleteResolve none failed s2 = s2 := by
  constructor
  · have h1 : removeById x s.bookmarks = s.bookmarks :=
      removeById_of_absent x s.bookmarks h
    have h2 : s.bookmarks.find? (fun b => b.id == x) = none := by
      rw [List.find?_eq_none]
      intro b hb
      simpa using h b hb
    simp [handleDeleteStart, h1, h2]
  · cases failed <;> rfl

/-- The list state used in the absent-id delete witness. -/
def sDel : ComponentState :=
  { bookmarks := [permB], url := "", title := "", isAdding := false, error := "" }

/-- C10 witness: deleting the absent id "t1" from a concrete one-record list,
with a failing request. -/
theorem c10_delete_absent_id_noop_witness :
    handleDeleteStart "t1" sDel = (sDel, none) ∧
    handleDeleteResolve none true sDel = sDel :=
  c10_delete_absent_id_noop "t1" sDel sDel true (by decide)
